import Mathlib

/-
  Verification of the UDS diagnostic protocol engine of overboost-rs.

  The embedding translates src/src/datalink/uds.rs. The Segmented Transport
  (the Isotp trait) is declared in src/datalink/isotp.rs, which is not part
  of the provided sources; it is modelled from the spec as an opaque channel
  observed through the result of its single write call and the list of
  successive read results. Bytes are Nat values below 256; u8 arithmetic
  that can overflow is written with an explicit % 256.
-/

namespace Overboost

/-- Modelled from the spec: the error type of the Segmented Transport
(IsotpError, declared in the missing src/datalink/isotp.rs). The spec treats
it as opaque ("transport-layer failure (opaque, propagated from Segmented
Transport)"); a Nat code keeps distinct values distinguishable. -/
inductive IsotpError where
  | mk (code : Nat) : IsotpError
deriving DecidableEq, Repr

/-- UdsError from src/src/datalink/uds.rs lines 26-42. -/
inductive UdsError where
  | isotp (e : IsotpError) : UdsError
  | negativeResponse (nrc : Nat) : UdsError
  | emptyResponse : UdsError
  | invalidResponseId : UdsError
  | invalidResponse : UdsError
deriving DecidableEq, Repr

-- Request SIDs (src/src/datalink/uds.rs lines 14-20)
def UDS_REQ_SESSION : Nat := 0x10
def UDS_REQ_SECURITY : Nat := 0x27
def UDS_REQ_READMEM : Nat := 0x23
def UDS_REQ_READDATABYID : Nat := 0x22

/-- requestCorrectlyReceivedResponsePending (uds.rs line 24). -/
def UDS_NRES_RCRRP : Nat := 0x78

/-- Modelled from the spec: one Segmented Transport instance as observed by
the Engine. write_isotp is called at most once per request, so the channel
is described by the result of that write together with the successive
results read_isotp returns. -/
structure Isotp where
  writeResult : Except IsotpError Unit
  reads : List (Except IsotpError (List Nat))

deriving instance DecidableEq for Except

/-- The response loop of request (uds.rs lines 120-143): consume the read
results in order; none means the loop is still running when the given
read stream is exhausted (the code would block or loop forever). -/
def runLoop (request_sid : Nat) :
    List (Except IsotpError (List Nat)) → Option (Except UdsError (List Nat))
  | [] => none
  | Except.error e :: _ => some (Except.error (UdsError.isotp e))
  | Except.ok response :: rest =>
    if response.isEmpty then
      some (Except.error UdsError.emptyResponse)
    else if response.getD 0 0 = 0x7F then
      if response.length > 1 then
        if response.getD 1 0 = UDS_NRES_RCRRP then
          runLoop request_sid rest
        else
          some (Except.error (UdsError.negativeResponse (response.getD 1 0)))
      else
        some (Except.error (UdsError.negativeResponse 0))
    else if response.getD 0 0 ≠ (request_sid + 0x40) % 256 then
      some (Except.error UdsError.invalidResponseId)
    else
      some (Except.ok response.tail)

/-- request (uds.rs lines 113-144). The first component of the result is
the list of messages passed to write_isotp, in order; the second is the
outcome (none when the loop never returns on the given read stream). The
u8 sum request_sid + 0x40 is taken modulo 256. -/
def request (request_sid : Nat) (data : List Nat) (t : Isotp) :
    List (List Nat) × Option (Except UdsError (List Nat)) :=
  let v := request_sid :: data
  match t.writeResult with
  | Except.error e => ([v], some (Except.error (UdsError.isotp e)))
  | Except.ok _ => ([v], runLoop request_sid t.reads)

/-- request_security_key (uds.rs lines 77-84): sends [0x02] ++ key under
SID 0x27; the ? operator propagates the error of request and the positive
payload is dropped (let _response = ...; Ok(())). -/
def request_security_key (key : List Nat) (t : Isotp) :
    List (List Nat) × Option (Except UdsError Unit) :=
  let req := 2 :: key
  let res := request UDS_REQ_SECURITY req t
  (res.1, res.2.map (fun r => r.map fun _ => ()))

/-- Big-endian u32 encoding, as written by ByteOrdered.be write_u32
(uds.rs line 91). -/
def write_u32_be (x : Nat) : List Nat :=
  [x / 2 ^ 24 % 256, x / 2 ^ 16 % 256, x / 2 ^ 8 % 256, x % 256]

/-- Big-endian u16 encoding, as written by ByteOrdered.be write_u16
(uds.rs line 92). -/
def write_u16_be (x : Nat) : List Nat :=
  [x / 2 ^ 8 % 256, x % 256]

/-- request_read_memory_address (uds.rs lines 86-95): 4-byte big-endian
address then 2-byte big-endian length, response returned unmodified. -/
def request_read_memory_address (address length : Nat) (t : Isotp) :
    List (List Nat) × Option (Except UdsError (List Nat)) :=
  let req := write_u32_be address ++ write_u16_be length
  request UDS_REQ_READMEM req t

/-- The validation read_data_by_identifier performs on the outcome of
request (uds.rs lines 100-108): length check, dataIdentifier echo check,
then the echoed identifier is removed. -/
def checkDataId (req : List Nat) (r : Option (Except UdsError (List Nat))) :
    Option (Except UdsError (List Nat)) :=
  match r with
  | none => none
  | some (Except.error e) => some (Except.error e)
  | some (Except.ok res) =>
    if res.length < 2 then
      some (Except.error UdsError.invalidResponse)
    else if res.getD 0 0 ≠ req.getD 0 0 ∨ res.getD 1 0 ≠ req.getD 1 0 then
      some (Except.error UdsError.invalidResponse)
    else
      some (Except.ok (res.drop 2))

/-- read_data_by_identifier (uds.rs lines 97-109): the request payload is
the two bytes (id >> 8) as u8 and (id & 0xFF) as u8. -/
def read_data_by_identifier (id : Nat) (t : Isotp) :
    List (List Nat) × Option (Except UdsError (List Nat)) :=
  let req := [(id >>> 8) % 256, id % 256]
  let res := request UDS_REQ_READDATABYID req t
  (res.1, checkDataId req res.2)

/-- A read result that the loop discards: a reassembled message whose
first two bytes are 0x7F, 0x78 (response pending). -/
def IsPending (m : Except IsotpError (List Nat)) : Prop :=
  ∃ junk, m = Except.ok (0x7F :: 0x78 :: junk)

-- Sanity checks of the embedding on concrete inputs.

example :
    request 0x10 [0x03] ⟨Except.ok (), [Except.ok [0x50, 0x01, 0x02]]⟩
      = ([[0x10, 0x03]], some (Except.ok [0x01, 0x02])) := by decide

example :
    request 0x22 [0x12, 0x34]
        ⟨Except.ok (), [Except.ok [0x7F, 0x78], Except.ok [0x62, 0x12, 0x34, 0xAA]]⟩
      = ([[0x22, 0x12, 0x34]], some (Except.ok [0x12, 0x34, 0xAA])) := by decide

example :
    request 0x10 [] ⟨Except.ok (), [Except.ok [0x7F, 0x31]]⟩
      = ([[0x10]], some (Except.error (UdsError.negativeResponse 0x31))) := by decide

example :
    request 0x10 [] ⟨Except.ok (), [Except.ok [0x7F, 0x78], Except.ok [0x7F, 0x78]]⟩
      = ([[0x10]], none) := by decide

example :
    read_data_by_identifier 0x1234
        ⟨Except.ok (), [Except.ok [0x62, 0x12, 0x34, 0xAA, 0xBB]]⟩
      = ([[0x22, 0x12, 0x34]], some (Except.ok [0xAA, 0xBB])) := by decide

example :
    read_data_by_identifier 0x1234
        ⟨Except.ok (), [Except.ok [0x62, 0x12, 0x35, 0xAA]]⟩
      = ([[0x22, 0x12, 0x34]], some (Except.error UdsError.invalidResponse)) := by decide

example :
    request_read_memory_address 0x00100000 0x0010 ⟨Except.ok (), [Except.ok [0x63, 0x01]]⟩
      = ([[0x23, 0x00, 0x10, 0x00, 0x00, 0x00, 0x10]], some (Except.ok [0x01])) := by decide

example :
    request_security_key [0xAA] ⟨Except.ok (), [Except.ok [0x67, 0x05]]⟩
      = ([[0x27, 0x02, 0xAA]], some (Except.ok ())) := by decide

-- The 0x3F corner: the positive echo of SID 0x3F is 0x7F, which the loop
-- classifies as a negative response.

example :
    request 0x3F [] ⟨Except.ok (), [Except.ok [0x7F]]⟩
      = ([[0x3F]], some (Except.error (UdsError.negativeResponse 0))) := by decide

example :
    request 0xC0 [] ⟨Except.ok (), [Except.ok [0x00, 0x42]]⟩
      = ([[0xC0]], some (Except.ok [0x42])) := by decide

-- Helper lemmas about the retry loop.

/-- A pending message is discarded and the loop continues on the rest. -/
theorem runLoop_cons_pending (sid : Nat) (junk : List Nat)
    (rest : List (Except IsotpError (List Nat))) :
    runLoop sid (Except.ok (0x7F :: 0x78 :: junk) :: rest) = runLoop sid rest := by
  simp [runLoop, UDS_NRES_RCRRP]

/-- A prefix of pending messages is discarded entirely. -/
theorem runLoop_pending_append (sid : Nat)
    (pend rest : List (Except IsotpError (List Nat)))
    (hpend : ∀ m ∈ pend, IsPending m) :
    runLoop sid (pend ++ rest) = runLoop sid rest := by
  induction pend with
  | nil => rfl
  | cons m pend ih =>
    obtain ⟨junk, rfl⟩ := hpend m (List.mem_cons_self m pend)
    rw [List.cons_append, runLoop_cons_pending]
    exact ih fun x hx => hpend x (List.mem_cons_of_mem _ hx)

/-- A message carrying the positive echo byte resolves the loop, provided
the echo byte is not 0x7F. -/
theorem runLoop_cons_positive (sid : Nat) (p : List Nat)
    (rest : List (Except IsotpError (List Nat)))
    (hecho : (sid + 0x40) % 256 ≠ 0x7F) :
    runLoop sid (Except.ok ((sid + 0x40) % 256 :: p) :: rest)
      = some (Except.ok p) := by
  simp [runLoop, hecho]

/-- Shape equation: an empty message fails with emptyResponse. -/
theorem runLoop_cons_nil (sid : Nat) (rest : List (Except IsotpError (List Nat))) :
    runLoop sid (Except.ok [] :: rest) = some (Except.error UdsError.emptyResponse) := by
  simp [runLoop]

/-- Shape equation: a transport read error is propagated. -/
theorem runLoop_cons_error (sid : Nat) (e : IsotpError)
    (rest : List (Except IsotpError (List Nat))) :
    runLoop sid (Except.error e :: rest) = some (Except.error (UdsError.isotp e)) :=
  rfl

/-- Shape equation: a single-byte message. -/
theorem runLoop_cons_single (sid b0 : Nat) (rest : List (Except IsotpError (List Nat))) :
    runLoop sid (Except.ok [b0] :: rest) =
      if b0 = 0x7F then some (Except.error (UdsError.negativeResponse 0))
      else if b0 ≠ (sid + 0x40) % 256 then some (Except.error UdsError.invalidResponseId)
      else some (Except.ok []) := by
  simp [runLoop]

/-- Shape equation: a message of at least two bytes. -/
theorem runLoop_cons_cons (sid b0 b1 : Nat) (t : List Nat)
    (rest : List (Except IsotpError (List Nat))) :
    runLoop sid (Except.ok (b0 :: b1 :: t) :: rest) =
      if b0 = 0x7F then
        if b1 = 0x78 then runLoop sid rest
        else some (Except.error (UdsError.negativeResponse b1))
      else if b0 ≠ (sid + 0x40) % 256 then some (Except.error UdsError.invalidResponseId)
      else some (Except.ok (b1 :: t)) := by
  have hlen : (b0 :: b1 :: t).length > 1 := by simp
  simp only [runLoop, List.isEmpty_cons, Bool.false_eq_true, if_false, if_pos hlen,
    UDS_NRES_RCRRP]
  simp [List.getD]

/-- The loop never returns the negative-response error carrying NRC 0x78. -/
theorem runLoop_ne_rcrrp (sid : Nat) (reads : List (Except IsotpError (List Nat))) :
    runLoop sid reads ≠ some (Except.error (UdsError.negativeResponse 0x78)) := by
  induction reads with
  | nil => simp [runLoop]
  | cons m rest ih =>
    cases m with
    | error e => rw [runLoop_cons_error]; simp
    | ok response =>
      match response with
      | [] => rw [runLoop_cons_nil]; simp
      | [b0] =>
        rw [runLoop_cons_single]
        split_ifs <;> simp
      | b0 :: b1 :: t =>
        rw [runLoop_cons_cons]
        split_ifs with h1 h2 h3
        · exact ih
        · simp
          omega
        · simp
        · simp

/-- request calls write_isotp exactly once, with [request_sid] ++ data,
whatever the transport does. -/
theorem request_writes (sid : Nat) (data : List Nat) (t : Isotp) :
    (request sid data t).1 = [sid :: data] := by
  obtain ⟨w, reads⟩ := t
  cases w <;> rfl

/-- The loop runs forever exactly when every read result is pending. -/
theorem runLoop_eq_none_iff (sid : Nat) (reads : List (Except IsotpError (List Nat))) :
    runLoop sid reads = none ↔ ∀ m ∈ reads, IsPending m := by
  induction reads with
  | nil => simp [runLoop]
  | cons m rest ih =>
    cases m with
    | error e => rw [runLoop_cons_error]; simp [IsPending]
    | ok response =>
      match response with
      | [] => rw [runLoop_cons_nil]; simp [IsPending]
      | [b0] =>
        rw [runLoop_cons_single]
        split_ifs <;> simp [IsPending]
      | b0 :: b1 :: t =>
        rw [runLoop_cons_cons]
        split_ifs with h1 h2 h3
        · subst h1; subst h2
          rw [ih]
          simp [IsPending]
        · simp [IsPending, h2]
        · simp [IsPending, h1]
        · simp [IsPending, h1]

-- Claim theorems.

/-- C1 counterexample: the claim quantifies over every service_id, but for
service_id 0x3F the positive echo byte (0x3F + 0x40) % 256 equals 0x7F, so
the valid positive response [0x3F + 0x40] ++ [] — with zero pending frames
before it — is classified as a negative response: request returns the
negative-response error rather than the payload []. -/
theorem C1_counterexample :
    (0x3F + 0x40) % 256 = 0x7F ∧
    request 0x3F [] ⟨Except.ok (), [Except.ok [(0x3F + 0x40) % 256]]⟩
      = ([[0x3F]], some (Except.error (UdsError.negativeResponse 0))) ∧
    (request 0x3F [] ⟨Except.ok (), [Except.ok [(0x3F + 0x40) % 256]]⟩).2
      ≠ some (Except.ok []) := by
  refine ⟨rfl, by decide, by decide⟩

/-- C1 (amended): for every byte service_id other than 0x3F and every
payload, and every finite number of pending messages beginning with
0x7F, 0x78 followed by the valid positive response [service_id + 0x40] ++ p,
request discards each pending message, calls write_isotp exactly once with
[service_id] ++ payload, and returns p. -/
theorem C1_pending_retry_transparent (sid : Nat) (payload p : List Nat)
    (pend rest : List (Except IsotpError (List Nat)))
    (hsid : sid < 256) (hne : sid ≠ 0x3F)
    (hpend : ∀ m ∈ pend, IsPending m) :
    request sid payload
        ⟨Except.ok (), pend ++ Except.ok ((sid + 0x40) % 256 :: p) :: rest⟩
      = ([sid :: payload], some (Except.ok p)) := by
  have hecho : (sid + 0x40) % 256 ≠ 0x7F := by omega
  show ([sid :: payload],
      runLoop sid (pend ++ Except.ok ((sid + 0x40) % 256 :: p) :: rest)) = _
  rw [runLoop_pending_append sid pend _ hpend, runLoop_cons_positive sid p rest hecho]

/-- C1 witness: service 0x22, two pending frames, then the positive
response 0x62 ++ [0xAB]. -/
theorem C1_pending_retry_transparent_witness :
    request 0x22 [0x12, 0x34]
        ⟨Except.ok (), [Except.ok [0x7F, 0x78], Except.ok [0x7F, 0x78, 0xFF],
          Except.ok [0x62, 0xAB]]⟩
      = ([[0x22, 0x12, 0x34]], some (Except.ok [0xAB])) := by
  have h := C1_pending_retry_transparent 0x22 [0x12, 0x34] [0xAB]
      [Except.ok [0x7F, 0x78], Except.ok [0x7F, 0x78, 0xFF]] [] (by decide) (by decide)
      (by
        intro m hm
        rcases List.mem_cons.mp hm with rfl | hm
        · exact ⟨[], rfl⟩
        rcases List.mem_cons.mp hm with rfl | hm
        · exact ⟨[0xFF], rfl⟩
        · exact absurd hm (List.not_mem_nil m))
  simpa using h

/-- C2 counterexample: for service_id 0x3F the first non-pending response
[0x3F + 0x40] ++ [0x05] is classified as a negative response carrying NRC
0x05, so request does not return Ok [0x05]. -/
theorem C2_counterexample :
    request 0x3F [0x01] ⟨Except.ok (), [Except.ok ((0x3F + 0x40) % 256 :: [0x05])]⟩
      = ([[0x3F, 0x01]], some (Except.error (UdsError.negativeResponse 0x05))) ∧
    (request 0x3F [0x01] ⟨Except.ok (), [Except.ok ((0x3F + 0x40) % 256 :: [0x05])]⟩).2
      ≠ some (Except.ok [0x05]) := by
  exact ⟨by decide, by decide⟩

/-- C2 (amended): for every byte service_id other than 0x3F, if the first
non-pending response of the transport is [service_id + 0x40] ++ p, then
request returns Ok p: the response with exactly the leading echo byte
stripped. -/
theorem C2_positive_payload_stripped (sid : Nat) (payload p : List Nat)
    (pend rest : List (Except IsotpError (List Nat)))
    (hsid : sid < 256) (hne : sid ≠ 0x3F)
    (hpend : ∀ m ∈ pend, IsPending m) :
    (request sid payload
        ⟨Except.ok (), pend ++ Except.ok ((sid + 0x40) % 256 :: p) :: rest⟩).2
      = some (Except.ok p) := by
  have hecho : (sid + 0x40) % 256 ≠ 0x7F := by omega
  show runLoop sid (pend ++ Except.ok ((sid + 0x40) % 256 :: p) :: rest) = _
  rw [runLoop_pending_append sid pend _ hpend, runLoop_cons_positive sid p rest hecho]

/-- C2 witness: service 0x10, one pending frame, positive response
0x50 ++ [0x01, 0x02]. -/
theorem C2_positive_payload_stripped_witness :
    (request 0x10 [0x03]
        ⟨Except.ok (), [Except.ok [0x7F, 0x78], Except.ok [0x50, 0x01, 0x02]]⟩).2
      = some (Except.ok [0x01, 0x02]) := by
  have h := C2_positive_payload_stripped 0x10 [0x03] [0x01, 0x02]
      [Except.ok [0x7F, 0x78]] [] (by decide) (by decide)
      (by
        intro m hm
        rcases List.mem_cons.mp hm with rfl | hm
        · exact ⟨[], rfl⟩
        · exact absurd hm (List.not_mem_nil m))
  simpa using h

/-- C3: request never returns the negative-response error carrying NRC
0x78; a response whose first two bytes are 0x7F, 0x78 is re-polled, never
surfaced as a terminal failure. -/
theorem C3_never_rcrrp_failure (sid : Nat) (data : List Nat) (t : Isotp) :
    (request sid data t).2 ≠ some (Except.error (UdsError.negativeResponse 0x78)) := by
  obtain ⟨w, reads⟩ := t
  cases w with
  | error e => simp [request]
  | ok u => exact runLoop_ne_rcrrp sid reads

/-- C4: a first response [0x7F, nrc, ...] with nrc different from 0x78
fails with the negative-response error carrying exactly nrc, and the
single-byte response [0x7F] fails with the negative-response error
carrying 0. -/
theorem C4_negative_response_nrc (sid nrc : Nat) (data junk : List Nat)
    (rest : List (Except IsotpError (List Nat))) (hnrc : nrc ≠ 0x78) :
    (request sid data ⟨Except.ok (), Except.ok (0x7F :: nrc :: junk) :: rest⟩).2
      = some (Except.error (UdsError.negativeResponse nrc)) ∧
    (request sid data ⟨Except.ok (), Except.ok [0x7F] :: rest⟩).2
      = some (Except.error (UdsError.negativeResponse 0)) := by
  constructor
  · show runLoop sid (Except.ok (0x7F :: nrc :: junk) :: rest) = _
    rw [runLoop_cons_cons]
    simp [hnrc]
  · show runLoop sid (Except.ok [0x7F] :: rest) = _
    rw [runLoop_cons_single]
    simp

/-- C4 witness: NRC 0x31 and the bare [0x7F] response under service 0x10. -/
theorem C4_negative_response_nrc_witness :
    (request 0x10 [] ⟨Except.ok (), [Except.ok [0x7F, 0x31]]⟩).2
      = some (Except.error (UdsError.negativeResponse 0x31)) ∧
    (request 0x10 [] ⟨Except.ok (), [Except.ok [0x7F]]⟩).2
      = some (Except.error (UdsError.negativeResponse 0)) :=
  C4_negative_response_nrc 0x10 0x31 [] [] [] (by decide)

/-- C5: a non-empty response whose leading byte is neither 0x7F nor the
positive echo (service_id + 0x40) % 256 fails with invalidResponseId, for
every one-byte service_id. -/
theorem C5_invalid_response_id (sid b0 : Nat) (data t0 : List Nat)
    (rest : List (Except IsotpError (List Nat)))
    (_hsid : sid < 256) (hb1 : b0 ≠ 0x7F) (hb2 : b0 ≠ (sid + 0x40) % 256) :
    (request sid data ⟨Except.ok (), Except.ok (b0 :: t0) :: rest⟩).2
      = some (Except.error UdsError.invalidResponseId) := by
  show runLoop sid (Except.ok (b0 :: t0) :: rest) = _
  cases t0 with
  | nil =>
    rw [runLoop_cons_single]
    simp [hb1, hb2]
  | cons b1 t1 =>
    rw [runLoop_cons_cons]
    simp [hb1, hb2]

/-- C5 witness: leading byte 0x22 against service 0x10 (echo 0x50). -/
theorem C5_invalid_response_id_witness :
    (request 0x10 [] ⟨Except.ok (), [Except.ok [0x22, 0x01]]⟩).2
      = some (Except.error UdsError.invalidResponseId) := by
  have h := C5_invalid_response_id 0x10 0x22 [] [0x01] [] (by decide) (by decide)
      (by decide)
  simpa using h

/-- C6: with the write accepted, request fails to reach a result on a
finite read stream exactly when every read result is a pending message
beginning with 0x7F, 0x78; in particular, for every n, a stream of n
pending responses is consumed entirely without request returning, so no
iteration bound exists and a transport that keeps answering [0x7F, 0x78]
stalls request forever. -/
theorem C6_termination_iff (sid : Nat) (data : List Nat)
    (reads : List (Except IsotpError (List Nat))) :
    ((request sid data ⟨Except.ok (), reads⟩).2 = none ↔ ∀ m ∈ reads, IsPending m) ∧
    ∀ n : Nat,
      (request sid data ⟨Except.ok (), List.replicate n (Except.ok [0x7F, 0x78])⟩).2
        = none := by
  constructor
  · exact runLoop_eq_none_iff sid reads
  · intro n
    show runLoop sid (List.replicate n (Except.ok [0x7F, 0x78])) = none
    rw [runLoop_eq_none_iff]
    intro m hm
    rw [List.eq_of_mem_replicate hm]
    exact ⟨[], rfl⟩

/-- C7: read_data_by_identifier sends service 0x22 with the 2-byte
big-endian encoding of the identifier; when the positive payload produced
by request echoes those two identifier bytes the echo is stripped, and
when either of the first two bytes differs it fails with invalidResponse. -/
theorem C7_read_data_by_identifier (id : Nat) (t : Isotp) (hid : id < 65536) :
    (read_data_by_identifier id t).1 = [[0x22, id / 256, id % 256]] ∧
    ∀ res, (request 0x22 [(id >>> 8) % 256, id % 256] t).2 = some (Except.ok res) →
      (∀ tl, res = (id >>> 8) % 256 :: id % 256 :: tl →
        (read_data_by_identifier id t).2 = some (Except.ok tl)) ∧
      (∀ b0 b1 tl, res = b0 :: b1 :: tl →
        b0 ≠ (id >>> 8) % 256 ∨ b1 ≠ id % 256 →
        (read_data_by_identifier id t).2 = some (Except.error UdsError.invalidResponse)) := by
  have hhi : (id >>> 8) % 256 = id / 256 := by
    rw [Nat.shiftRight_eq_div_pow]
    norm_num
    omega
  constructor
  · show (request UDS_REQ_READDATABYID [(id >>> 8) % 256, id % 256] t).1 = _
    rw [request_writes, hhi]
    rfl
  · intro res hreq
    constructor
    · intro tl htl
      show checkDataId [(id >>> 8) % 256, id % 256]
          (request UDS_REQ_READDATABYID [(id >>> 8) % 256, id % 256] t).2 = _
      rw [show (request UDS_REQ_READDATABYID [(id >>> 8) % 256, id % 256] t).2
            = (request 0x22 [(id >>> 8) % 256, id % 256] t).2 from rfl, hreq, htl]
      have hlen : ¬ ((id >>> 8) % 256 :: id % 256 :: tl).length < 2 := by
        simp
      have hech : ¬ (((id >>> 8) % 256 :: id % 256 :: tl).getD 0 0
            ≠ ([(id >>> 8) % 256, id % 256] : List Nat).getD 0 0 ∨
          ((id >>> 8) % 256 :: id % 256 :: tl).getD 1 0
            ≠ ([(id >>> 8) % 256, id % 256] : List Nat).getD 1 0) := by
        simp [List.getD]
      rw [checkDataId, if_neg hlen, if_neg hech]
      rfl
    · intro b0 b1 tl htl hne
      show checkDataId [(id >>> 8) % 256, id % 256]
          (request UDS_REQ_READDATABYID [(id >>> 8) % 256, id % 256] t).2 = _
      rw [show (request UDS_REQ_READDATABYID [(id >>> 8) % 256, id % 256] t).2
            = (request 0x22 [(id >>> 8) % 256, id % 256] t).2 from rfl, hreq, htl]
      have hlen : ¬ (b0 :: b1 :: tl).length < 2 := by simp
      have hech : ((b0 :: b1 :: tl).getD 0 0
            ≠ ([(id >>> 8) % 256, id % 256] : List Nat).getD 0 0 ∨
          (b0 :: b1 :: tl).getD 1 0
            ≠ ([(id >>> 8) % 256, id % 256] : List Nat).getD 1 0) := by
        simpa [List.getD] using hne
      rw [checkDataId, if_neg hlen, if_pos hech]

/-- C7 witness: identifier 0x1234 against response [0x12, 0x34, 0xAA, 0xBB]
returns [0xAA, 0xBB]. -/
theorem C7_read_data_by_identifier_witness :
    (read_data_by_identifier 0x1234
        ⟨Except.ok (), [Except.ok [0x62, 0x12, 0x34, 0xAA, 0xBB]]⟩).2
      = some (Except.ok [0xAA, 0xBB]) := by
  have h := C7_read_data_by_identifier 0x1234
      ⟨Except.ok (), [Except.ok [0x62, 0x12, 0x34, 0xAA, 0xBB]]⟩ (by decide)
  have h2 := (h.2 [0x12, 0x34, 0xAA, 0xBB] (by decide)).1 [0xAA, 0xBB] (by decide)
  exact h2

/-- C8: request_read_memory_address sends service 0x23 with the 4-byte
big-endian address followed by the 2-byte big-endian length and returns the
outcome of request unmodified; the claimed concrete encoding for address
0x00100000 and length 0x0010 is the byte sequence 00 10 00 00 00 10. -/
theorem C8_read_memory_address (address length : Nat) (t : Isotp)
    (_ha : address < 2 ^ 32) (_hl : length < 2 ^ 16) :
    (request_read_memory_address address length t).1
      = [0x23 :: (write_u32_be address ++ write_u16_be length)] ∧
    (request_read_memory_address address length t).2
      = (request 0x23 (write_u32_be address ++ write_u16_be length) t).2 ∧
    write_u32_be 0x00100000 ++ write_u16_be 0x0010
      = [0x00, 0x10, 0x00, 0x00, 0x00, 0x10] := by
  refine ⟨?_, rfl, by decide⟩
  show (request UDS_REQ_READMEM (write_u32_be address ++ write_u16_be length) t).1 = _
  rw [request_writes]
  rfl

/-- C8 witness: the concrete request message for address 0x00100000 and
length 0x0010. -/
theorem C8_read_memory_address_witness :
    (request_read_memory_address 0x00100000 0x0010
        ⟨Except.ok (), [Except.ok [0x63, 0xAB]]⟩).1
      = [[0x23, 0x00, 0x10, 0x00, 0x00, 0x00, 0x10]] := by
  have h := C8_read_memory_address 0x00100000 0x0010
      ⟨Except.ok (), [Except.ok [0x63, 0xAB]]⟩ (by norm_num) (by norm_num)
  rw [h.1]
  decide

/-- C9: request_security_key sends service 0x27 with payload [0x02] ++ key
and returns unit whenever request succeeds, whatever the positive payload
contains — the sub-function echo is not validated. -/
theorem C9_security_key (key : List Nat) (t : Isotp) (res : List Nat)
    (h : (request 0x27 (2 :: key) t).2 = some (Except.ok res)) :
    (request_security_key key t).1 = [[0x27, 0x02] ++ key] ∧
    (request_security_key key t).2 = some (Except.ok ()) := by
  constructor
  · show (request UDS_REQ_SECURITY (2 :: key) t).1 = _
    rw [request_writes]
    rfl
  · show ((request 0x27 (2 :: key) t).2.map fun r => r.map fun _ => ())
        = some (Except.ok ())
    rw [h]
    rfl

/-- C9 witness: the response echoes sub-function 0x05 instead of 0x02, yet
request_security_key still returns unit. -/
theorem C9_security_key_witness :
    (request 0x27 [0x02, 0xAA] ⟨Except.ok (), [Except.ok [0x67, 0x05]]⟩).2
      = some (Except.ok [0x05]) ∧
    (request_security_key [0xAA] ⟨Except.ok (), [Except.ok [0x67, 0x05]]⟩).2
      = some (Except.ok ()) := by
  have h := C9_security_key [0xAA] ⟨Except.ok (), [Except.ok [0x67, 0x05]]⟩ [0x05]
      (by decide)
  exact ⟨by decide, h.2⟩

/-- C10: the positive echo request accepts is (service_id + 0x40) % 256.
For every byte service_id at least 0xC0 the u8 sum wraps: the accepted echo
equals service_id + 0x40 - 256, and a response led by that wrapped byte is
treated as positive. -/
theorem C10_wrapping_echo (sid : Nat) (data p : List Nat)
    (rest : List (Except IsotpError (List Nat)))
    (h1 : 0xC0 ≤ sid) (h2 : sid < 256) :
    (sid + 0x40) % 256 = sid + 0x40 - 256 ∧
    (request sid data ⟨Except.ok (), Except.ok ((sid + 0x40) % 256 :: p) :: rest⟩).2
      = some (Except.ok p) := by
  have hecho : (sid + 0x40) % 256 ≠ 0x7F := by omega
  refine ⟨by omega, ?_⟩
  show runLoop sid (Except.ok ((sid + 0x40) % 256 :: p) :: rest) = _
  exact runLoop_cons_positive sid p rest hecho

/-- C10 witness: service id 0xC0 treats a response with leading byte 0x00
as positive. -/
theorem C10_wrapping_echo_witness :
    (request 0xC0 [] ⟨Except.ok (), [Except.ok [0x00, 0x42]]⟩).2
      = some (Except.ok [0x42]) := by
  have h := C10_wrapping_echo 0xC0 [] [0x42] [] (by decide) (by decide)
  simpa using h.2

end Overboost
